import Mathlib

set_option autoImplicit false
set_option linter.unusedVariables false
set_option maxRecDepth 40000

/-!
Shallow embedding of the student-management backend
(model/schema pre-save hooks, payments route, updete route, students route,
netlify functions api) together with theorems checking the natural-language
specification against it.

Conventions of the embedding:
* JavaScript numbers that carry scores, amounts and GPAs are modelled as `Rat`
  (all arithmetic the code performs on them is addition, division and
  comparison).
* Timestamps (`Date` values) are modelled as milliseconds since the epoch,
  `Int`.
* Mongo document ids are modelled as `Nat`.
* Fallible handlers return an error status plus message, mirroring
  `res.status(...).json({ message })`.
-/

namespace SMS

/-! ## Result schema and the grade pre-save hook (model/schema.js) -/

/-- One element of the `marks` array as submitted (fields of the `marks`
subdocument before the pre-save hook computes `totalScore`, `grade`, `gpa`;
missing numeric fields default to 0 as in the schema). -/
structure RawMark where
  subject : String
  mcqScore : Rat := 0
  mcqTotal : Rat := 0
  cqScore : Rat := 0
  cqTotal : Rat := 0
  deriving Repr, DecidableEq

/-- One element of the `marks` array after the pre-save hook has filled the
derived fields. -/
structure GradedMark where
  subject : String
  mcqScore : Rat
  mcqTotal : Rat
  cqScore : Rat
  cqTotal : Rat
  totalScore : Rat
  grade : String
  gpa : Rat
  deriving Repr, DecidableEq

/-- The derived part of a `Result` document: graded marks plus the overall
totals computed by `resultSchema.pre("save")`. -/
structure ResultDoc where
  marks : List GradedMark
  totalMcqMarks : Rat
  totalCqMarks : Rat
  totalMarks : Rat
  averageGPA : Rat
  deriving Repr, DecidableEq

/-- Model of `parseFloat(x.toFixed(2))`: round to two decimal places (ties
away from zero for the nonnegative values arising here). -/
def toFixed2 (x : Rat) : Rat :=
  (((x * 100 + 1/2).floor : Int) : Rat) / 100

/-- The loop body of `resultSchema.pre("save")` (`this.marks.map(...)` with
the running accumulators `totalMcq`, `totalCq`, `totalMarks`, `gpaSum`,
`subjectCount`).  The hook's `next` callback is one-shot, so the first
`next(new Error(...))` raised by a failing entry decides the outcome of the
save even though the remaining iterations still run; the embedding therefore
stops at the first failing entry.  `getGrade` is the injected grade-policy
collaborator (`config/gradeUtils`), returning `{ grade, gpa }` for a
percentage. -/
def gradeLoop (getGrade : Rat → String × Rat) :
    List RawMark → Except String (List GradedMark × Rat × Rat × Rat × Rat × Nat)
  | [] => .ok ([], 0, 0, 0, 0, 0)
  | m :: rest =>
    let subjectTotalScore := m.mcqScore + m.cqScore
    let subjectTotalMarks := m.mcqTotal + m.cqTotal
    if subjectTotalScore > subjectTotalMarks then
      .error ("Score exceeds total marks for subject " ++ m.subject)
    else
      let percentage : Rat :=
        if subjectTotalMarks > 0 then subjectTotalScore / subjectTotalMarks * 100 else 0
      let gg := getGrade percentage
      match gradeLoop getGrade rest with
      | .error e => .error e
      | .ok (graded, totalMcq, totalCq, totalMarks, gpaSum, subjectCount) =>
        .ok (⟨m.subject, m.mcqScore, m.mcqTotal, m.cqScore, m.cqTotal,
              subjectTotalScore, gg.1, gg.2⟩ :: graded,
             m.mcqScore + totalMcq, m.cqScore + totalCq,
             subjectTotalScore + totalMarks, gg.2 + gpaSum, subjectCount + 1)

/-- The `resultSchema.pre("save")` hook: rejects an empty marks array, runs
the grading loop, and on success fills the overall totals of the document. -/
def resultPreSave (getGrade : Rat → String × Rat) (marks : List RawMark) :
    Except String ResultDoc :=
  if marks.isEmpty then .error "Marks array cannot be empty"
  else
    match gradeLoop getGrade marks with
    | .error e => .error e
    | .ok (graded, totalMcq, totalCq, totalMarks, gpaSum, subjectCount) =>
      .ok { marks := graded
            totalMcqMarks := totalMcq
            totalCqMarks := totalCq
            totalMarks := totalMarks
            averageGPA :=
              if subjectCount > 0 then toFixed2 (gpaSum / (subjectCount : Rat)) else 0 }

/-- Persisting a new `Result` (`await newResult.save()` in the submit
routes): the pre-save hook either aborts the save, leaving the collection
untouched, or appends the fully computed document. -/
def saveResult (getGrade : Rat → String × Rat) (db : List ResultDoc)
    (marks : List RawMark) : List ResultDoc × Except String ResultDoc :=
  match resultPreSave getGrade marks with
  | .error e => (db, .error e)
  | .ok r => (db ++ [r], .ok r)

/-! ## Reference grading computation, transcribed from the spec wording
(section 4.1 of the spec) for comparison with `resultPreSave`. -/

/-- Reference per-entry computation following the spec wording:
`totalScore = mcqScore + cqScore`, `percentage = totalScore/totalPossible*100`
when `totalPossible > 0` else 0, grade and gpa from the injected policy. -/
def gradeEntrySpec (getGrade : Rat → String × Rat) (m : RawMark) : GradedMark :=
  let totalScore := m.mcqScore + m.cqScore
  let totalPossible := m.mcqTotal + m.cqTotal
  let percentage : Rat := if totalPossible > 0 then totalScore / totalPossible * 100 else 0
  { subject := m.subject
    mcqScore := m.mcqScore
    mcqTotal := m.mcqTotal
    cqScore := m.cqScore
    cqTotal := m.cqTotal
    totalScore := totalScore
    grade := (getGrade percentage).1
    gpa := (getGrade percentage).2 }

/-- Reference aggregate computation following the spec wording:
`totalMcqMarks = Σ mcqScore`, `totalCqMarks = Σ cqScore`,
`totalMarks = Σ totalScore`, `averageGPA = round(Σ gpa / count, 2)`. -/
def gradeResultSpec (getGrade : Rat → String × Rat) (marks : List RawMark) : ResultDoc :=
  { marks := marks.map (gradeEntrySpec getGrade)
    totalMcqMarks := (marks.map fun m => m.mcqScore).sum
    totalCqMarks := (marks.map fun m => m.cqScore).sum
    totalMarks := (marks.map fun m => m.mcqScore + m.cqScore).sum
    averageGPA :=
      toFixed2 ((marks.map fun m => (gradeEntrySpec getGrade m).gpa).sum
        / (marks.length : Rat)) }

/-- Sample grade-policy table (a possible instance of the injected
`config/gradeUtils` collaborator, which is external configuration); used only
to evaluate witnesses on concrete inputs. -/
def sampleGradePolicy (percentage : Rat) : String × Rat :=
  if percentage ≥ 80 then ("A+", 5)
  else if percentage ≥ 70 then ("A", 4)
  else if percentage ≥ 60 then ("A-", (35 : Rat) / 10)
  else if percentage ≥ 33 then ("C", 2)
  else ("F", 0)

/-- An entry violates the score validation when its combined score exceeds
its combined total. -/
def overScore (m : RawMark) : Prop :=
  m.mcqScore + m.cqScore > m.mcqTotal + m.cqTotal

instance (m : RawMark) : Decidable (overScore m) := by
  unfold overScore; infer_instance

theorem gradeLoop_error_of_over (getGrade : Rat → String × Rat) :
    ∀ marks : List RawMark, (∃ m ∈ marks, overScore m) →
      ∃ m ∈ marks, overScore m ∧
        gradeLoop getGrade marks =
          .error ("Score exceeds total marks for subject " ++ m.subject) := by
  intro marks
  induction marks with
  | nil => rintro ⟨m, hm, -⟩; simp at hm
  | cons m rest ih =>
    intro h
    by_cases hv : overScore m
    · refine ⟨m, List.mem_cons_self m rest, hv, ?_⟩
      simp only [gradeLoop]
      rw [if_pos (by unfold overScore at hv; exact hv)]
    · obtain ⟨w, hw, hvw⟩ := h
      rcases List.mem_cons.mp hw with rfl | hw'
      · exact absurd hvw hv
      · obtain ⟨m', hm', hv', heq⟩ := ih ⟨w, hw', hvw⟩
        refine ⟨m', List.mem_cons_of_mem m hm', hv', ?_⟩
        simp only [gradeLoop]
        rw [if_neg (by unfold overScore at hv; exact hv), heq]

theorem gradeLoop_ok_of_valid (getGrade : Rat → String × Rat) :
    ∀ marks : List RawMark, (∀ m ∈ marks, ¬ overScore m) →
      gradeLoop getGrade marks =
        .ok (marks.map (gradeEntrySpec getGrade),
             (marks.map fun m => m.mcqScore).sum,
             (marks.map fun m => m.cqScore).sum,
             (marks.map fun m => m.mcqScore + m.cqScore).sum,
             (marks.map fun m => (gradeEntrySpec getGrade m).gpa).sum,
             marks.length) := by
  intro marks
  induction marks with
  | nil => intro _; rfl
  | cons m rest ih =>
    intro h
    have hm : ¬ overScore m := h m (List.mem_cons_self m rest)
    simp only [gradeLoop]
    rw [if_neg (by unfold overScore at hm; exact hm),
      ih (fun x hx => h x (List.mem_cons_of_mem m hx))]
    simp [gradeEntrySpec]

theorem sum_map_mcq_cq (l : List RawMark) :
    (l.map fun m => m.mcqScore + m.cqScore).sum =
      (l.map fun m => m.mcqScore).sum + (l.map fun m => m.cqScore).sum := by
  induction l with
  | nil => simp
  | cons m rest ih => simp [ih]; ring

/-- C1: a marks list containing an entry whose combined score strictly
exceeds its combined total makes the result save fail with an error naming a
violating entry's subject, and the whole save is aborted: the result
collection is unchanged, so no partial document is persisted. -/
theorem overscore_save_aborts_all (getGrade : Rat → String × Rat)
    (db : List ResultDoc) (marks : List RawMark)
    (h : ∃ m ∈ marks, overScore m) :
    (saveResult getGrade db marks).1 = db ∧
    ∃ m ∈ marks, overScore m ∧
      (saveResult getGrade db marks).2 =
        .error ("Score exceeds total marks for subject " ++ m.subject) := by
  obtain ⟨m, hm, hv, heq⟩ := gradeLoop_error_of_over getGrade marks h
  have hne : marks ≠ [] := by rintro rfl; simp at hm
  have hps : resultPreSave getGrade marks =
      .error ("Score exceeds total marks for subject " ++ m.subject) := by
    unfold resultPreSave
    rw [if_neg (by simp [List.isEmpty_iff, hne]), heq]
  unfold saveResult
  rw [hps]
  exact ⟨rfl, m, hm, hv, rfl⟩

/-- Concrete mark entry from the spec's counterexample
`{mcqScore:80, mcqTotal:50}`. -/
def mathOverMark : RawMark :=
  { subject := "Math", mcqScore := 80, mcqTotal := 50 }

/-- Concrete valid mark entry used to evaluate the grading pipeline. -/
def mathValidMark : RawMark :=
  { subject := "Math", mcqScore := 40, mcqTotal := 50, cqScore := 45, cqTotal := 50 }

theorem overScore_mathOverMark : overScore mathOverMark := by
  norm_num [overScore, mathOverMark]

theorem not_overScore_mathValidMark : ¬ overScore mathValidMark := by
  norm_num [overScore, mathValidMark]

theorem overscore_save_aborts_all_witness :
    (∃ m ∈ [mathOverMark], overScore m) ∧
    ((saveResult sampleGradePolicy [] [mathOverMark]).1 = [] ∧
      ∃ m ∈ [mathOverMark], overScore m ∧
        (saveResult sampleGradePolicy [] [mathOverMark]).2 =
          .error ("Score exceeds total marks for subject " ++ m.subject)) :=
  ⟨⟨mathOverMark, List.mem_singleton_self _, overScore_mathOverMark⟩,
   overscore_save_aborts_all sampleGradePolicy [] [mathOverMark]
     ⟨mathOverMark, List.mem_singleton_self _, overScore_mathOverMark⟩⟩

/-- C2: for a non-empty marks list that passes validation, the saved result
document equals the reference computation transcribed from the spec (per
entry `totalScore = mcqScore + cqScore`, percentage rule, and the aggregates
`totalMcqMarks = Σ mcqScore`, `totalCqMarks = Σ cqScore`,
`totalMarks = Σ totalScore`, `averageGPA = round(Σ gpa / count, 2)`), and
`totalMarks = totalMcqMarks + totalCqMarks` always holds for it. -/
theorem grading_matches_reference (getGrade : Rat → String × Rat)
    (marks : List RawMark) (hne : marks ≠ [])
    (hok : ∀ m ∈ marks, ¬ overScore m) :
    resultPreSave getGrade marks = .ok (gradeResultSpec getGrade marks) ∧
    (gradeResultSpec getGrade marks).totalMarks =
      (gradeResultSpec getGrade marks).totalMcqMarks +
        (gradeResultSpec getGrade marks).totalCqMarks := by
  constructor
  · unfold resultPreSave
    rw [if_neg (by simp [List.isEmpty_iff, hne]), gradeLoop_ok_of_valid getGrade marks hok]
    have hlen : 0 < marks.length := List.length_pos.mpr hne
    simp only [gradeResultSpec]
    rw [if_pos hlen]
  · simp [gradeResultSpec, sum_map_mcq_cq]

theorem grading_matches_reference_witness :
    ([mathValidMark] ≠ ([] : List RawMark)) ∧
    (∀ m ∈ [mathValidMark], ¬ overScore m) ∧
    (resultPreSave sampleGradePolicy [mathValidMark] =
        .ok (gradeResultSpec sampleGradePolicy [mathValidMark]) ∧
      (gradeResultSpec sampleGradePolicy [mathValidMark]).totalMarks =
        (gradeResultSpec sampleGradePolicy [mathValidMark]).totalMcqMarks +
          (gradeResultSpec sampleGradePolicy [mathValidMark]).totalCqMarks) :=
  ⟨by simp, by simpa using not_overScore_mathValidMark,
   grading_matches_reference sampleGradePolicy [mathValidMark] (by simp)
     (by simpa using not_overScore_mathValidMark)⟩

/-! ## Payment cycle calculator (src/payments/route.js) -/

/-- Milliseconds in a day (`1000 * 60 * 60 * 24`). -/
def msPerDay : Int := 1000 * 60 * 60 * 24

/-- Return value of `calculatePaymentCycle`. -/
structure PaymentCycle where
  needsReset : Bool
  daysLeft : Int
  isOverdue : Bool
  deriving Repr, DecidableEq

/-- `calculatePaymentCycle` from src/payments/route.js.  The handler's
`new Date()` is passed explicitly as `now`; timestamps are milliseconds, and
`Math.floor` of the division by one day is floor division. -/
def calculatePaymentCycle (lastPaymentDate now : Int) : PaymentCycle :=
  let daysSinceLastPayment := Int.fdiv (now - lastPaymentDate) msPerDay
  let daysLeft := 30 - daysSinceLastPayment
  if daysSinceLastPayment ≥ 30 then
    { needsReset := true, daysLeft := 0, isOverdue := true }
  else
    { needsReset := false, daysLeft := max 0 daysLeft, isOverdue := false }

/-- C3: the payment cycle calculator returns
`{needsReset := true, daysLeft := 0, isOverdue := true}` exactly when the
elapsed floored day count reaches 30, and
`{needsReset := false, daysLeft := max 0 (30 - elapsed), isOverdue := false}`
otherwise; in particular a last payment 29 days ago leaves one day, and one
30 days ago is overdue and resets. -/
theorem payment_cycle_spec (lastPaymentDate now : Int) :
    (Int.fdiv (now - lastPaymentDate) msPerDay ≥ 30 →
      calculatePaymentCycle lastPaymentDate now = ⟨true, 0, true⟩) ∧
    (Int.fdiv (now - lastPaymentDate) msPerDay < 30 →
      calculatePaymentCycle lastPaymentDate now =
        ⟨false, max 0 (30 - Int.fdiv (now - lastPaymentDate) msPerDay), false⟩) ∧
    calculatePaymentCycle (now - 29 * msPerDay) now = ⟨false, 1, false⟩ ∧
    calculatePaymentCycle (now - 30 * msPerDay) now = ⟨true, 0, true⟩ := by
  have h29 : Int.fdiv (now - (now - 29 * msPerDay)) msPerDay = 29 := by
    have he : now - (now - 29 * msPerDay) = 29 * msPerDay := by ring
    rw [he, Int.mul_fdiv_cancel _ (by norm_num [msPerDay])]
  have h30 : Int.fdiv (now - (now - 30 * msPerDay)) msPerDay = 30 := by
    have he : now - (now - 30 * msPerDay) = 30 * msPerDay := by ring
    rw [he, Int.mul_fdiv_cancel _ (by norm_num [msPerDay])]
  refine ⟨?_, ?_, ?_, ?_⟩
  · intro h
    simp only [calculatePaymentCycle]
    rw [if_pos h]
  · intro h
    simp only [calculatePaymentCycle]
    rw [if_neg (not_le.mpr h)]
  · simp only [calculatePaymentCycle, h29]
    norm_num
  · simp only [calculatePaymentCycle, h30]
    norm_num

theorem payment_cycle_spec_witness :
    (Int.fdiv ((2592000000 : Int) - 0) msPerDay ≥ 30 ∧
      calculatePaymentCycle 0 2592000000 = ⟨true, 0, true⟩) ∧
    (Int.fdiv ((2505600000 : Int) - 0) msPerDay < 30 ∧
      calculatePaymentCycle 0 2505600000 =
        ⟨false, max 0 (30 - Int.fdiv ((2505600000 : Int) - 0) msPerDay), false⟩) :=
  ⟨⟨by decide, (payment_cycle_spec 0 2592000000).1 (by decide)⟩,
   ⟨by decide, (payment_cycle_spec 0 2505600000).2.1 (by decide)⟩⟩

/-! ## Accounts and students (model/schema.js) -/

/-- The `role` enum of the user schema. -/
inductive Role
  | super_admin
  | admin
  | teacher
  | student
  deriving Repr, DecidableEq

/-- One `{class, section}` pair of `assignedClasses`.  The schema field names
`class` and `section` are Lean keywords, hence `className`/`sectionName`. -/
structure ClassSection where
  className : String
  sectionName : String
  deriving Repr, DecidableEq

/-- A `User` document (super admin, admin or teacher).  Refresh tokens are
kept as their token strings; the 7-day TTL (`expires`) is enforced by the
persistence layer and not modelled. -/
structure UserDoc where
  id : Nat
  firstName : String
  lastName : String
  email : String
  password : String
  role : Role
  assignedClasses : List ClassSection
  adminCode : Option String
  createdBy : Option Nat
  refreshTokens : List String
  deriving Repr, DecidableEq

/-- One entry of a student's `paymentDetails` history. -/
structure PaymentDetail where
  initialAmount : Rat
  increasedAmount : Rat
  dueDate : Int
  isPaid : Bool
  createdAt : Int
  deriving Repr, DecidableEq

/-- A `Student` document.  `lastPaymentDate` is read and written by the
payments route although the schema does not declare it. -/
structure StudentDoc where
  id : Nat
  name : String
  userName : String
  password : String
  roll : Int
  className : String
  sectionName : String
  paymentAmount : Rat
  hasPaid : Bool
  paymentDetails : List PaymentDetail
  createdBy : Nat
  lastPaymentDate : Option Int
  createdAt : Int
  refreshTokens : List String
  deriving Repr, DecidableEq

/-- `User.findById`. -/
def findUserById (users : List UserDoc) (id : Nat) : Option UserDoc :=
  users.find? (fun u => u.id == id)

/-- `Student.findById`. -/
def findStudentById (students : List StudentDoc) (id : Nat) : Option StudentDoc :=
  students.find? (fun s => s.id == id)

/-- The `requireRole` middleware shared by the route files: it looks the
requester up in the `User` collection and rejects roles outside the allowed
list with 403 "Insufficient permissions". -/
def requireRole (allowedRoles : List Role) (users : List UserDoc) (actorId : Nat) :
    Except (Nat × String) UserDoc :=
  match findUserById users actorId with
  | none => .error (404, "User not found")
  | some user =>
    if allowedRoles.contains user.role then .ok user
    else .error (403, "Insufficient permissions")

/-! ## Refresh-token lifecycle (POST /signin, /refresh, /logout in
src/updete/route.js) -/

/-- The three operations that touch a subject's `refreshTokens` array. -/
inductive TokenOp
  | signin (t : String)
  | refreshTok (oldTok newTok : String)
  | logout (t : String)
  deriving Repr, DecidableEq

/-- Effect of one operation on a subject's `refreshTokens` array:
sign-in pushes the new token and keeps `slice(-5)` when the array exceeds 5;
refresh (when the presented token belongs to the subject) filters it out and
pushes the replacement; logout filters out the presented token. -/
def applyTokenOp (tokens : List String) : TokenOp → List String
  | .signin t =>
    let pushed := tokens ++ [t]
    if pushed.length > 5 then pushed.drop (pushed.length - 5) else pushed
  | .refreshTok oldTok newTok =>
    if tokens.contains oldTok then
      tokens.filter (fun x => x != oldTok) ++ [newTok]
    else tokens
  | .logout t => tokens.filter (fun x => x != t)

theorem applyTokenOp_length_le (tokens : List String) (op : TokenOp)
    (h : tokens.length ≤ 5) : (applyTokenOp tokens op).length ≤ 5 := by
  cases op with
  | signin t =>
    simp only [applyTokenOp]
    split
    · simp only [List.length_drop, List.length_append, List.length_singleton]
      omega
    · simp only [List.length_append, List.length_singleton] at *
      omega
  | refreshTok oldTok newTok =>
    simp only [applyTokenOp]
    split
    · rename_i hc
      have hmem : oldTok ∈ tokens := by simpa using hc
      have hlt : (tokens.filter (fun x => x != oldTok)).length < tokens.length := by
        refine List.length_filter_lt_length_iff_exists.mpr ⟨oldTok, hmem, ?_⟩
        simp
      simp only [List.length_append, List.length_singleton]
      omega
    · exact h
  | logout t =>
    simp only [applyTokenOp]
    exact le_trans (List.length_filter_le _ _) h

/-- C8: starting from a subject holding at most 5 live refresh tokens, any
sequence of sign-in, refresh and logout operations leaves at most 5; and a
sign-in on a full array of 5 evicts exactly the oldest token, keeping the 5
most recent in order. -/
theorem refresh_token_cap (init : List String) (ops : List TokenOp)
    (h : init.length ≤ 5) :
    (ops.foldl applyTokenOp init).length ≤ 5 ∧
    (∀ (tokens : List String) (t : String), tokens.length = 5 →
      applyTokenOp tokens (.signin t) = tokens.drop 1 ++ [t]) := by
  constructor
  · induction ops generalizing init with
    | nil => exact h
    | cons op rest ih => exact ih _ (applyTokenOp_length_le init op h)
  · intro tokens t hlen
    simp only [applyTokenOp]
    rw [if_pos (by simp [hlen])]
    rw [List.length_append, List.length_singleton, hlen]
    rw [show 5 + 1 - 5 = 1 from rfl]
    exact List.drop_append_of_le_length (by omega)

theorem refresh_token_cap_witness :
    (["t1", "t2", "t3", "t4", "t5"] : List String).length ≤ 5 ∧
    (([TokenOp.signin "t6"].foldl applyTokenOp ["t1", "t2", "t3", "t4", "t5"]).length ≤ 5 ∧
      (∀ (tokens : List String) (t : String), tokens.length = 5 →
        applyTokenOp tokens (.signin t) = tokens.drop 1 ++ [t])) :=
  ⟨by decide, refresh_token_cap ["t1", "t2", "t3", "t4", "t5"] [.signin "t6"] (by decide)⟩

/-! ## DELETE /user/:id (src/updete/route.js) -/

/-- Response of the delete-user handler. -/
inductive DeleteResp
  | ok (msg : String)
  | err (status : Nat) (msg : String)
  deriving Repr, DecidableEq

/-- DELETE /user/:id: guarded by `requireRole(['super_admin', 'admin'])`.
For a non-super-admin actor the handler evaluates
`user.createdBy.toString()`, which throws a TypeError when `createdBy` is
null; the catch block reports that as 500 "Server error".  A target whose
role is super_admin is refused with 403 before any deletion. -/
def deleteUserRoute (users : List UserDoc) (actorId : Nat) (id : Nat) :
    List UserDoc × DeleteResp :=
  match requireRole [.super_admin, .admin] users actorId with
  | .error (s, m) => (users, .err s m)
  | .ok currentUser =>
    match findUserById users id with
    | none => (users, .err 404 "User not found")
    | some user =>
      let proceed : List UserDoc × DeleteResp :=
        if user.role = .super_admin then
          (users, .err 403 "Super admin cannot be deleted")
        else
          (users.filter (fun u => u.id != id), .ok "User deleted successfully")
      if currentUser.role = .super_admin then proceed
      else
        match user.createdBy with
        | none => (users, .err 500 "Server error")
        | some c =>
          if c ≠ actorId then (users, .err 403 "Not authorized to delete this user")
          else proceed

/-- C5: whatever the actor is, a delete request whose target account has role
super_admin never removes the account — the user collection is unchanged and
the response is an error. -/
theorem super_admin_never_deleted (users : List UserDoc) (actorId id : Nat)
    (target : UserDoc) (hfind : findUserById users id = some target)
    (hrole : target.role = .super_admin) :
    (deleteUserRoute users actorId id).1 = users ∧
    ∃ s m, (deleteUserRoute users actorId id).2 = .err s m := by
  unfold deleteUserRoute
  rcases hreq : requireRole [.super_admin, .admin] users actorId with ⟨s, m⟩ | currentUser
  · exact ⟨rfl, s, m, rfl⟩
  · rw [hfind]
    simp only
    by_cases hcu : currentUser.role = .super_admin
    · rw [if_pos hcu, if_pos hrole]
      exact ⟨rfl, 403, "Super admin cannot be deleted", rfl⟩
    · rw [if_neg hcu]
      cases hcb : target.createdBy with
      | none => exact ⟨rfl, 500, "Server error", rfl⟩
      | some c =>
        dsimp only
        by_cases hc : c ≠ actorId
        · rw [if_pos hc]
          exact ⟨rfl, 403, "Not authorized to delete this user", rfl⟩
        · rw [if_neg hc, if_pos hrole]
          exact ⟨rfl, 403, "Super admin cannot be deleted", rfl⟩

/-- Concrete bootstrap super admin used by witnesses. -/
def rootAdmin : UserDoc :=
  { id := 1, firstName := "Root", lastName := "Admin", email := "root@school.test"
    password := "hashed", role := .super_admin, assignedClasses := []
    adminCode := none, createdBy := none, refreshTokens := [] }

theorem super_admin_never_deleted_witness :
    findUserById [rootAdmin] 1 = some rootAdmin ∧
    rootAdmin.role = .super_admin ∧
    ((deleteUserRoute [rootAdmin] 1 1).1 = [rootAdmin] ∧
      ∃ s m, (deleteUserRoute [rootAdmin] 1 1).2 = .err s m) :=
  ⟨by decide, by decide,
   super_admin_never_deleted [rootAdmin] 1 1 rootAdmin (by decide) (by decide)⟩

/-! ## GET /student/:id and GET /student (students route) -/

/-- A student document after `.select("-password -refreshTokens")`: every
schema field except the credential hash and the refresh tokens.  The
`populate` of `createdBy` resolves the creator's public fields for display
and is kept here as the stored creator id. -/
structure SanitizedStudent where
  id : Nat
  name : String
  userName : String
  roll : Int
  className : String
  sectionName : String
  paymentAmount : Rat
  hasPaid : Bool
  paymentDetails : List PaymentDetail
  createdBy : Nat
  lastPaymentDate : Option Int
  createdAt : Int
  deriving Repr, DecidableEq

/-- Projection performed by `.select("-password -refreshTokens")`. -/
def sanitizeStudent (s : StudentDoc) : SanitizedStudent :=
  ⟨s.id, s.name, s.userName, s.roll, s.className, s.sectionName,
   s.paymentAmount, s.hasPaid, s.paymentDetails, s.createdBy,
   s.lastPaymentDate, s.createdAt⟩

/-- Response of the single-student read. -/
inductive GetStudentResp
  | ok (student : SanitizedStudent)
  | err (status : Nat) (msg : String)
  deriving Repr, DecidableEq

/-- GET /student/:id: after `requireRole(['super_admin', 'admin',
'teacher'])`, the handler looks the student up and returns the sanitized
record — it consults neither `createdBy` nor `assignedClasses`. -/
def getStudentByIdRoute (users : List UserDoc) (students : List StudentDoc)
    (actorId : Nat) (id : Nat) : GetStudentResp :=
  match requireRole [.super_admin, .admin, .teacher] users actorId with
  | .error (s, m) => .err s m
  | .ok _currentUser =>
    match findStudentById students id with
    | none => .err 404 "Student not found"
    | some student => .ok (sanitizeStudent student)

/-- GET /student (collection read) in the case without query parameters:
the super admin sees all students, an admin sees students created by them or
by teachers they created, a teacher sees students of their assigned
class/section pairs (empty list when no classes are assigned).  The
role case `student` is unreachable behind `requireRole`.  The `.sort` is
presentational and omitted. -/
def getStudentsRoute (users : List UserDoc) (students : List StudentDoc)
    (actorId : Nat) : Except (Nat × String) (List SanitizedStudent) :=
  match requireRole [.super_admin, .admin, .teacher] users actorId with
  | .error e => .error e
  | .ok currentUser =>
    match currentUser.role with
    | .super_admin => .ok (students.map sanitizeStudent)
    | .admin =>
      let teacherIds :=
        (users.filter (fun t => t.createdBy == some actorId && t.role == Role.teacher)).map
          (fun t => t.id)
      .ok ((students.filter
        (fun s => s.createdBy == actorId || teacherIds.contains s.createdBy)).map
          sanitizeStudent)
    | .teacher =>
      if currentUser.assignedClasses.isEmpty then .ok []
      else
        .ok ((students.filter (fun s => currentUser.assignedClasses.any
          (fun c => c.className == s.className && c.sectionName == s.sectionName))).map
            sanitizeStudent)
    | .student => .error (403, "Insufficient permissions")

/-- C10: any actor whose role is super_admin, admin or teacher receives the
full sanitized record of any existing student from GET /student/:id, with no
ownership or assigned-class check — while the collection read is scoped: for
a teacher it only returns students of assigned class/section pairs. -/
theorem get_student_by_id_unscoped (users : List UserDoc)
    (students : List StudentDoc) (actorId id : Nat) (actor : UserDoc)
    (student : StudentDoc)
    (hactor : findUserById users actorId = some actor)
    (hrole : actor.role = .super_admin ∨ actor.role = .admin ∨ actor.role = .teacher)
    (hstud : findStudentById students id = some student) :
    getStudentByIdRoute users students actorId id = .ok (sanitizeStudent student) ∧
    (actor.role = .teacher →
      ∀ ss, getStudentsRoute users students actorId = .ok ss →
        ∀ t ∈ ss, actor.assignedClasses.any
          (fun c => c.className == t.className && c.sectionName == t.sectionName) = true) := by
  have hcont : ([Role.super_admin, Role.admin, Role.teacher].contains actor.role) = true := by
    rcases hrole with h | h | h <;> rw [h] <;> decide
  have hreq : requireRole [.super_admin, .admin, .teacher] users actorId = .ok actor := by
    unfold requireRole
    rw [hactor]
    dsimp only
    rw [if_pos hcont]
  constructor
  · unfold getStudentByIdRoute
    rw [hreq]
    dsimp only
    rw [hstud]
  · intro hteach ss hss t ht
    unfold getStudentsRoute at hss
    rw [hreq] at hss
    dsimp only at hss
    rw [hteach] at hss
    dsimp only at hss
    by_cases hempty : actor.assignedClasses.isEmpty
    · rw [if_pos hempty] at hss
      cases hss
      simp at ht
    · rw [if_neg hempty] at hss
      cases hss
      obtain ⟨s, hs, rfl⟩ := List.mem_map.mp ht
      have := (List.mem_filter.mp hs).2
      simpa [sanitizeStudent] using this

/-- Concrete teacher assigned to class 9 section A, for witnesses. -/
def teacher9A : UserDoc :=
  { id := 3, firstName := "Tina", lastName := "Teach", email := "tina@school.test"
    password := "hashed", role := .teacher
    assignedClasses := [{ className := "9", sectionName := "A" }]
    adminCode := none, createdBy := some 2, refreshTokens := [] }

/-- Concrete student in class 9 section A, for witnesses. -/
def student9A : StudentDoc :=
  { id := 10, name := "Sam", userName := "sam9a", password := "hashed"
    roll := 7, className := "9", sectionName := "A"
    paymentAmount := 0, hasPaid := false, paymentDetails := []
    createdBy := 2, lastPaymentDate := none, createdAt := 0, refreshTokens := [] }

theorem get_student_by_id_unscoped_witness :
    findUserById [teacher9A] 3 = some teacher9A ∧
    (teacher9A.role = .super_admin ∨ teacher9A.role = .admin ∨
      teacher9A.role = .teacher) ∧
    findStudentById [student9A] 10 = some student9A ∧
    (getStudentByIdRoute [teacher9A] [student9A] 3 10 =
        .ok (sanitizeStudent student9A) ∧
      (teacher9A.role = .teacher →
        ∀ ss, getStudentsRoute [teacher9A] [student9A] 3 = .ok ss →
          ∀ t ∈ ss, teacher9A.assignedClasses.any
            (fun c => c.className == t.className &&
              c.sectionName == t.sectionName) = true)) :=
  ⟨by decide, by decide, by decide,
   get_student_by_id_unscoped [teacher9A] [student9A] 3 10 teacher9A student9A
     (by decide) (by decide) (by decide)⟩

/-! ## Payment derivation: studentSchema.pre("save") versus
PUT /payments/:studentId (src/payments/route.js) -/

/-- The `studentSchema.pre("save")` hook: derives `paymentAmount` and
`hasPaid` from the latest `paymentDetails` entry and the current date
(`new Date()`), or zero/false when the history is empty. -/
def studentPreSave (currentDate : Int) (s : StudentDoc) : StudentDoc :=
  match s.paymentDetails.getLast? with
  | some latestPayment =>
    { s with
      hasPaid := latestPayment.isPaid
      paymentAmount :=
        if latestPayment.isPaid then 0
        else if currentDate > latestPayment.dueDate then latestPayment.increasedAmount
        else latestPayment.initialAmount }
  | none => { s with paymentAmount := 0, hasPaid := false }

/-- The derivation rule as the spec states it, used to judge documents:
`hasPaid` mirrors the latest entry's `isPaid`, `paymentAmount` is 0 when
paid, the increased amount past the due date and the initial amount before
it, and both are zero/false when the history is empty. -/
def paymentDerived (currentDate : Int) (s : StudentDoc) : Prop :=
  match s.paymentDetails.getLast? with
  | some latest =>
    s.hasPaid = latest.isPaid ∧
      s.paymentAmount =
        (if latest.isPaid then 0
         else if currentDate > latest.dueDate then latest.increasedAmount
         else latest.initialAmount)
  | none => s.paymentAmount = 0 ∧ s.hasPaid = false

/-- Response of the payment-update handler. -/
inductive PaymentResp
  | ok (student : StudentDoc)
  | err (status : Nat) (msg : String)
  deriving Repr, DecidableEq

/-- `Student.findByIdAndUpdate(id, { $set: ... })`: replaces fields of the
matching document in place.  Crucially this does not run the
`studentSchema.pre("save")` hook. -/
def replaceStudent (students : List StudentDoc) (id : Nat) (s1 : StudentDoc) :
    List StudentDoc :=
  students.map (fun s => if s.id == id then s1 else s)

/-- PUT /payments/:studentId (behind `requireRole(['admin',
'super_admin'])`; `actor` is the resolved `req.currentUser`).  The `typeof`
input checks are carried by the types except `paymentAmount < 0`; a
non-super-admin may only touch students they created; the handler then
`$set`s `paymentAmount` and `hasPaid` straight from the request body (plus
`lastPaymentDate`) via `findByIdAndUpdate`.  The JSON echo of the cycle
state is elided; the response carries the updated document. -/
def updatePaymentRoute (currentDate : Int) (actor : UserDoc)
    (students : List StudentDoc) (studentId : Nat) (paymentAmount : Rat)
    (hasPaid : Bool) : List StudentDoc × PaymentResp :=
  if paymentAmount < 0 then (students, .err 400 "Invalid payment amount")
  else
    match findStudentById students studentId with
    | none => (students, .err 404 "Student not found")
    | some student =>
      if actor.role ≠ .super_admin ∧ student.createdBy ≠ actor.id then
        (students, .err 403 "Not authorized to update this student")
      else
        let lastPaymentDate := student.lastPaymentDate.getD student.createdAt
        let paymentCycle := calculatePaymentCycle lastPaymentDate currentDate
        let lastRaw := if hasPaid then some currentDate else student.lastPaymentDate
        let newLastPayment :=
          if paymentCycle.needsReset && hasPaid then some currentDate else lastRaw
        let updated := { student with
          paymentAmount := paymentAmount
          hasPaid := hasPaid
          lastPaymentDate := newLastPayment }
        (replaceStudent students studentId updated, .ok updated)

/-- Concrete admin (creator of `student9A`) used in the payment
counterexample and witnesses. -/
def admin2 : UserDoc :=
  { id := 2, firstName := "Ada", lastName := "Admin", email := "ada@school.test"
    password := "hashed", role := .admin, assignedClasses := []
    adminCode := some "2510001", createdBy := some 1, refreshTokens := [] }

/-- The document `student9A` becomes after the payment update of the
counterexample. -/
def student9APaid : StudentDoc :=
  { student9A with paymentAmount := 500, hasPaid := true, lastPaymentDate := some 1000 }

/-- C6 as stated is violated: the payment-update endpoint writes
`paymentAmount`/`hasPaid` directly from the request body through
`findByIdAndUpdate`, which bypasses the pre-save derivation.  With an empty
payment history the completed operation leaves `paymentAmount = 500` and
`hasPaid = true` where the derivation rule demands zero/false. -/
theorem payment_update_breaks_derivation :
    updatePaymentRoute 1000 admin2 [student9A] 10 500 true =
      ([student9APaid], .ok student9APaid) ∧
    ¬ paymentDerived 1000 student9APaid := by
  constructor
  · unfold updatePaymentRoute
    rw [if_neg (by norm_num)]
    have hfind : findStudentById [student9A] 10 = some student9A := by
      simp [findStudentById, student9A]
    rw [hfind]
    dsimp only
    rw [if_neg (by simp [admin2, student9A])]
    simp [replaceStudent, student9A, student9APaid, calculatePaymentCycle, msPerDay]
  · simp only [paymentDerived, student9APaid, student9A]
    norm_num

/-- C6 amended: the derivation rule is exactly what the save path
establishes — after `studentSchema.pre("save")` runs, any student document
satisfies it — while the payment-update endpoint stores the request's
`paymentAmount`/`hasPaid` verbatim on success. -/
theorem payment_derivation_amended :
    (∀ (currentDate : Int) (s : StudentDoc),
      paymentDerived currentDate (studentPreSave currentDate s)) ∧
    (∀ (currentDate : Int) (actor : UserDoc) (students : List StudentDoc)
        (studentId : Nat) (amount : Rat) (paid : Bool) (s1 : StudentDoc),
      (updatePaymentRoute currentDate actor students studentId amount paid).2 =
          .ok s1 →
        s1.paymentAmount = amount ∧ s1.hasPaid = paid) := by
  constructor
  · intro currentDate s
    cases hl : s.paymentDetails.getLast? with
    | none => simp [studentPreSave, paymentDerived, hl]
    | some latest => simp [studentPreSave, paymentDerived, hl]
  · intro currentDate actor students studentId amount paid s1 h
    unfold updatePaymentRoute at h
    by_cases hneg : amount < 0
    · rw [if_pos hneg] at h
      cases h
    · rw [if_neg hneg] at h
      cases hfind : findStudentById students studentId with
      | none => rw [hfind] at h; cases h
      | some student =>
        rw [hfind] at h
        dsimp only at h
        by_cases hauth : actor.role ≠ Role.super_admin ∧ student.createdBy ≠ actor.id
        · rw [if_pos hauth] at h
          cases h
        · rw [if_neg hauth] at h
          cases h
          exact ⟨rfl, rfl⟩

theorem payment_derivation_amended_witness :
    paymentDerived 1000 (studentPreSave 1000 student9A) ∧
    ((updatePaymentRoute 1000 admin2 [student9A] 10 500 true).2 =
        .ok student9APaid ∧
      student9APaid.paymentAmount = 500 ∧ student9APaid.hasPaid = true) := by
  have happ := payment_derivation_amended.2 1000 admin2 [student9A] 10 500 true
    student9APaid
  refine ⟨payment_derivation_amended.1 1000 student9A, ?_, ?_, ?_⟩
  · unfold updatePaymentRoute
    rw [if_neg (by norm_num)]
    have hfind : findStudentById [student9A] 10 = some student9A := by
      simp [findStudentById, student9A]
    rw [hfind]
    dsimp only
    rw [if_neg (by simp [admin2, student9A])]
    simp [student9A, student9APaid, calculatePaymentCycle, msPerDay]
  · exact (happ (by
      unfold updatePaymentRoute
      rw [if_neg (by norm_num)]
      have hfind : findStudentById [student9A] 10 = some student9A := by
        simp [findStudentById, student9A]
      rw [hfind]
      dsimp only
      rw [if_neg (by simp [admin2, student9A])]
      simp [student9A, student9APaid, calculatePaymentCycle, msPerDay])).1
  · exact (happ (by
      unfold updatePaymentRoute
      rw [if_neg (by norm_num)]
      have hfind : findStudentById [student9A] 10 = some student9A := by
        simp [findStudentById, student9A]
      rw [hfind]
      dsimp only
      rw [if_neg (by simp [admin2, student9A])]
      simp [student9A, student9APaid, calculatePaymentCycle, msPerDay])).2

/-! ## PUT /student/:id (src/updete/route.js) -/

/-- Optional fields of the update request body.  JavaScript truthiness
guards (`if (name) ...`) are modelled by presence: a supplied value stands
for a truthy one (the handler treats "" and 0 like an absent field). -/
structure StudentUpdateBody where
  name : Option String := none
  userName : Option String := none
  password : Option String := none
  roll : Option Int := none
  className : Option String := none
  sectionName : Option String := none
  deriving Repr, DecidableEq

/-- Projection of the student echoed by the update handler's response. -/
structure StudentUpdateEcho where
  id : Nat
  name : String
  userName : String
  roll : Int
  className : String
  sectionName : String
  createdBy : Nat
  deriving Repr, DecidableEq

/-- Response of the student-update handler. -/
inductive StudentUpdateResp
  | ok (student : StudentUpdateEcho)
  | err (status : Nat) (msg : String)
  deriving Repr, DecidableEq

/-- Lines 189-237 of the update handler, shared by every requester kind:
username-uniqueness check (the new username is also applied there when it
differs), duplicate-roll check when `roll`, `class` and `section` are all
present, password policy, field application — where `roll`, `class` and
`section` only stick when `currentUser?.role` is super_admin or admin —
then `student.save()` (which runs `studentSchema.pre("save")`) and the
response projection.  `hash` is the bcrypt collaborator. -/
def applyStudentUpdate (currentDate : Int) (hash : String → String)
    (currentUser : Option UserDoc) (students : List StudentDoc)
    (student : StudentDoc) (id : Nat) (body : StudentUpdateBody) :
    List StudentDoc × StudentUpdateResp :=
  let userNameConflict : Bool :=
    match body.userName with
    | some un => un != student.userName &&
        students.any (fun o => o.userName == un && o.id != id)
    | none => false
  if userNameConflict then (students, .err 400 "Username already in use")
  else
    let s0 := match body.userName with
      | some un => if un != student.userName then { student with userName := un } else student
      | none => student
    let rollConflict : Bool :=
      match body.roll, body.className, body.sectionName with
      | some r, some c, some sec =>
        students.any (fun o => o.roll == r && o.className == c &&
          o.sectionName == sec && o.id != id)
      | _, _, _ => false
    if rollConflict then
      (students, .err 400 "Roll number already exists in this class and section")
    else
      let passwordTooShort : Bool :=
        match body.password with
        | some p => p.length < 6
        | none => false
      if passwordTooShort then
        (students, .err 400 "Password must be at least 6 characters")
      else
        let privileged : Bool :=
          match currentUser with
          | some cu => cu.role == Role.super_admin || cu.role == Role.admin
          | none => false
        let s1 := match body.name with
          | some n => { s0 with name := n }
          | none => s0
        let s2 := match body.password with
          | some p => { s1 with password := hash p }
          | none => s1
        let s3 := match body.roll with
          | some r => if privileged then { s2 with roll := r } else s2
          | none => s2
        let s4 := match body.className with
          | some c => if privileged then { s3 with className := c } else s3
          | none => s3
        let s5 := match body.sectionName with
          | some sec => if privileged then { s4 with sectionName := sec } else s4
          | none => s4
        let saved := studentPreSave currentDate s5
        (replaceStudent students id saved,
         .ok ⟨saved.id, saved.name, saved.userName, saved.roll, saved.className,
              saved.sectionName, saved.createdBy⟩)

/-- PUT /student/:id from src/updete/route.js: the requester is resolved
from the User collection, falling back to the Student collection (a student
may only act on their own record); a teacher must be assigned to the
student's class/section pair and is rejected when the body carries
`userName`, `class` or `section`; a student requester is rejected when it
carries `roll`, `class`, `section` or `userName`. -/
def putStudentRoute (currentDate : Int) (hash : String → String)
    (users : List UserDoc) (students : List StudentDoc) (actorId : Nat)
    (id : Nat) (body : StudentUpdateBody) :
    List StudentDoc × StudentUpdateResp :=
  match findStudentById students id with
  | none => (students, .err 404 "Student not found")
  | some student =>
    match findUserById users actorId with
    | some currentUser =>
      if currentUser.role = .teacher then
        if currentUser.assignedClasses.any (fun cls =>
            cls.className == student.className &&
              cls.sectionName == student.sectionName) then
          if body.userName.isSome || body.className.isSome || body.sectionName.isSome then
            (students, .err 403 "Teachers can only update name or roll")
          else applyStudentUpdate currentDate hash (some currentUser) students student id body
        else (students, .err 403 "Not authorized to update this student")
      else applyStudentUpdate currentDate hash (some currentUser) students student id body
    | none =>
      match findStudentById students actorId with
      | none => (students, .err 404 "Current user not found")
      | some currentStudent =>
        if currentStudent.id ≠ id then (students, .err 404 "Current user not found")
        else if body.roll.isSome || body.className.isSome || body.sectionName.isSome
            || body.userName.isSome then
          (students, .err 403 "Students can only update name or password")
        else applyStudentUpdate currentDate hash none students student id body

/-- C4 is contradicted by the code on the roll field: a teacher assigned to
the student's class who sends only `roll` passes every permission check and
receives a success response, yet the roll is silently not applied — the
assignment on line 220 is restricted to super_admin/admin, contradicting the
handler's own "Teachers can only update name or roll" rule.  Here teacher 3
(assigned to 9-A) sets roll 42 on student 10 (roll 7): the response echoes
roll 7 and the collection is unchanged. -/
theorem teacher_roll_update_ignored :
    putStudentRoute 0 (fun p => p) [teacher9A] [student9A] 3 10
        { roll := some 42 } =
      ([student9A], .ok ⟨10, "Sam", "sam9a", 7, "9", "A", 2⟩) := by
  decide

/-! ## GET /results/:studentId (src/netlify/functions/api.js) -/

/-- A persisted `Result` document (derived fields included). -/
structure ResultRecord where
  student : Nat
  className : String
  semester : String
  examType : String
  marks : List GradedMark
  totalMcqMarks : Rat
  totalCqMarks : Rat
  totalMarks : Rat
  averageGPA : Rat
  createdAt : Int
  deriving Repr, DecidableEq

/-- Outcome of the `authenticateToken` middleware: 401 "Access token
required" when no bearer token is presented, 403 "Invalid or expired token"
when verification fails, otherwise the verified subject id. -/
inductive AuthOutcome
  | noToken
  | invalid
  | authed (uid : Nat)
  deriving Repr, DecidableEq

/-- The `authenticateToken` middleware shared by the route files:
`req.headers['authorization']` is split on a blank, the second part is the
token (falsy when missing or empty), and `jwt.verify` — the injected
`verify` — accepts or rejects it. -/
def authenticateToken (verify : String → Option Nat)
    (authHeader : Option String) : AuthOutcome :=
  match authHeader with
  | none => .noToken
  | some h =>
    match (h.splitOn " ").get? 1 with
    | none => .noToken
    | some tok =>
      if tok = "" then .noToken
      else
        match verify tok with
        | none => .invalid
        | some uid => .authed uid

/-- `Result.findOne({ student: studentId }).sort({ createdAt: -1 })`: the
student's most recent result. -/
def latestResultFor (results : List ResultRecord) (sid : Nat) :
    Option ResultRecord :=
  match results.filter (fun r => r.student == sid) with
  | [] => none
  | r :: rs =>
    some (rs.foldl (fun acc x => if x.createdAt > acc.createdAt then x else acc) r)

/-- Body of a successful results response: the student's public fields plus
the stored result. -/
structure ResultsPayload where
  studentName : String
  roll : Int
  className : String
  sectionName : String
  examType : String
  semester : String
  marks : List GradedMark
  totalMcqMarks : Rat
  totalCqMarks : Rat
  totalMarks : Rat
  averageGPA : Rat
  deriving Repr, DecidableEq

/-- Response of the results endpoint. -/
inductive ResultsResp
  | ok (payload : ResultsPayload)
  | err (status : Nat) (msg : String)
  deriving Repr, DecidableEq

/-- GET /results/:studentId as registered in src/netlify/functions/api.js
line 164: unlike every other route of the file — including the sibling
GET /results/:studentId/:examType — it registers NO `authenticateToken`
middleware, so the handler runs regardless of the Authorization header;
`verify` and `authHeader` are consequently unused. -/
def getResultsRoute (verify : String → Option Nat) (authHeader : Option String)
    (students : List StudentDoc) (results : List ResultRecord)
    (studentId : Nat) : ResultsResp :=
  match findStudentById students studentId with
  | none => .err 404 "Student not found"
  | some student =>
    match latestResultFor results studentId with
    | none => .err 404 "No results found for this student"
    | some r =>
      .ok ⟨student.name, student.roll, student.className, student.sectionName,
           r.examType, r.semester, r.marks, r.totalMcqMarks, r.totalCqMarks,
           r.totalMarks, r.averageGPA⟩

/-- Concrete persisted result for `student9A`, the C9 failing input. -/
def mathResult : ResultRecord :=
  { student := 10, className := "9", semester := "1st", examType := "combined"
    marks := [⟨"Math", 40, 50, 45, 50, 85, "A+", 5⟩]
    totalMcqMarks := 40, totalCqMarks := 45, totalMarks := 85, averageGPA := 5
    createdAt := 0 }

/-- C9 is contradicted by the code: a request with no Authorization header —
which `authenticateToken` would reject with 401 — still receives the
student's entity data from GET /results/:studentId, because that route omits
the middleware. -/
theorem results_route_unauthenticated_leak :
    authenticateToken (fun t => none) none = .noToken ∧
    getResultsRoute (fun t => none) none [student9A] [mathResult] 10 =
      .ok ⟨"Sam", 7, "9", "A", "combined", "1st",
           [⟨"Math", 40, 50, 45, 50, 85, "A+", 5⟩], 40, 45, 85, 5⟩ :=
  ⟨rfl, rfl⟩

/-! ## Admin-code generation and POST /admin/create (src/updete/route.js)

String manipulation is embedded through executable char-list primitives
(`String` library functions built on well-founded recursion do not reduce),
each documented with the JavaScript operation it models. -/

/-- Decimal digit character: `'0'` plus the digit. -/
def digitChar (d : Nat) : Char := Char.ofNat (48 + d)

/-- Fuel-driven decimal conversion, the model of `Number.toString()` for the
sequence counter; the first argument is fuel and is always sufficient. -/
def natToDigitsAux : Nat → Nat → List Char → List Char
  | 0, n, acc => digitChar n :: acc
  | fuel + 1, n, acc =>
    if n < 10 then digitChar n :: acc
    else natToDigitsAux fuel (n / 10) (digitChar (n % 10) :: acc)

/-- `sequence.toString()`. -/
def natToString (n : Nat) : String := String.mk (natToDigitsAux n n [])

/-- `String.padStart(3, '0')`. -/
def padStart3 (s : String) : String :=
  if s.length ≥ 3 then s else String.mk (List.replicate (3 - s.length) '0') ++ s

/-- `sequence.toString().padStart(3, '0')`. -/
def pad3 (n : Nat) : String := padStart3 (natToString n)

/-- `code.slice(-3)`: the last three characters. -/
def sliceLast3 (s : String) : String := String.mk (s.data.drop (s.length - 3))

/-- `parseInt` on the all-digit suffix sliced from an admin code. -/
def parseSeq (s : String) : Nat :=
  s.data.foldl (fun acc c => acc * 10 + (c.toNat - 48)) 0

/-- Byte-order string comparison (Mongo's binary collation, which
`sort({ adminCode: -1 })` uses): `charListLe a b = true` iff `a ≤ b`. -/
def charListLe : List Char → List Char → Bool
  | [], _ => true
  | _ :: _, [] => false
  | a :: as, b :: bs =>
    if a < b then true else if b < a then false else charListLe as bs

/-- The `^prefix` regular-expression match of the scan. -/
def codeMatches (yymm code : String) : Bool := yymm.data.isPrefixOf code.data

/-- `findOne({adminCode: /^prefix/}, {adminCode: 1}, {sort: {adminCode: -1}})`
restricted to the matching codes: the greatest one in byte order. -/
def latestMatching : List String → Option String
  | [] => none
  | c :: cs =>
    some (cs.foldl (fun best x => if charListLe best.data x.data then x else best) c)

/-- `generateAdminCode`: scan the stored codes for those sharing the current
`YYMM` prefix, take the greatest, parse its last three characters as the
sequence number, and emit the prefix plus the zero-padded successor,
starting at 001 when no code matches. -/
def generateAdminCode (yymm : String) (codes : List String) : String :=
  let matching := codes.filter (fun c => codeMatches yymm c)
  let sequence :=
    match latestMatching matching with
    | some latest => parseSeq (sliceLast3 latest) + 1
    | none => 1
  yymm ++ pad3 sequence

/-- The unique indexes that can reject the insert of a new admin
(`err.code === 11000` with `keyPattern` email or adminCode). -/
inductive DupKey
  | email
  | code
  deriving Repr, DecidableEq

/-- Response of POST /admin/create. -/
inductive AdminCreateResp
  | created (adminCode : String)
  | badRequest (msg : String)
  deriving Repr, DecidableEq

/-- POST /admin/create (after `requireRole(['super_admin'])` and the
required-field/password checks): duplicate-email pre-check, one call to
`generateAdminCode`, one `save`.  A unique-constraint violation reported by
that single save attempt is mapped by the catch block straight to a 400
response — `keyPattern.adminCode` to "Admin code already exists. Please try
again.", otherwise "User already exists"; there is no retry loop.
`saveOutcome` abstracts the persistence layer's verdict on the insert. -/
def adminCreateRoute (yymm : String) (codes : List String) (emailExists : Bool)
    (saveOutcome : String → Option DupKey) : AdminCreateResp :=
  if emailExists then .badRequest "User already exists"
  else
    match saveOutcome (generateAdminCode yymm codes) with
    | none => .created (generateAdminCode yymm codes)
    | some .code => .badRequest "Admin code already exists. Please try again."
    | some .email => .badRequest "User already exists"

theorem mk_data (l : List Char) : (String.mk l).data = l := rfl

theorem mk_of_data (s : String) : String.mk s.data = s := rfl

theorem pad3_eq_digits :
    ∀ n < 1000, pad3 n =
      String.mk [digitChar (n / 100), digitChar (n / 10 % 10), digitChar (n % 10)] := by
  decide

theorem parseSeq_pad3 : ∀ n < 1000, parseSeq (pad3 n) = n := by decide

theorem digitChar_lt_iff :
    ∀ a < 10, ∀ b < 10, (digitChar a < digitChar b ↔ a < b) := by
  decide

theorem charListLe_append (p a b : List Char) :
    charListLe (p ++ a) (p ++ b) = charListLe a b := by
  induction p with
  | nil => rfl
  | cons c p ih =>
    show (if c < c then true else if c < c then false
      else charListLe (p ++ a) (p ++ b)) = charListLe a b
    rw [if_neg (lt_irrefl c), if_neg (lt_irrefl c)]
    exact ih

theorem charListLe_digits (a b : Nat) (ha : a < 1000) (hb : b < 1000) :
    charListLe [digitChar (a / 100), digitChar (a / 10 % 10), digitChar (a % 10)]
      [digitChar (b / 100), digitChar (b / 10 % 10), digitChar (b % 10)] =
      decide (a ≤ b) := by
  have ha2 : a / 100 < 10 := by omega
  have hb2 : b / 100 < 10 := by omega
  have ha1 : a / 10 % 10 < 10 := by omega
  have hb1 : b / 10 % 10 < 10 := by omega
  have ha0 : a % 10 < 10 := by omega
  have hb0 : b % 10 < 10 := by omega
  simp only [charListLe]
  by_cases h2 : a / 100 < b / 100
  · rw [if_pos ((digitChar_lt_iff _ ha2 _ hb2).mpr h2)]
    simp [show a ≤ b by omega]
  · rw [if_neg (fun hc => h2 ((digitChar_lt_iff _ ha2 _ hb2).mp hc))]
    by_cases h2' : b / 100 < a / 100
    · rw [if_pos ((digitChar_lt_iff _ hb2 _ ha2).mpr h2')]
      simp [show ¬ a ≤ b by omega]
    · rw [if_neg (fun hc => h2' ((digitChar_lt_iff _ hb2 _ ha2).mp hc))]
      by_cases h1 : a / 10 % 10 < b / 10 % 10
      · rw [if_pos ((digitChar_lt_iff _ ha1 _ hb1).mpr h1)]
        simp [show a ≤ b by omega]
      · rw [if_neg (fun hc => h1 ((digitChar_lt_iff _ ha1 _ hb1).mp hc))]
        by_cases h1' : b / 10 % 10 < a / 10 % 10
        · rw [if_pos ((digitChar_lt_iff _ hb1 _ ha1).mpr h1')]
          simp [show ¬ a ≤ b by omega]
        · rw [if_neg (fun hc => h1' ((digitChar_lt_iff _ hb1 _ ha1).mp hc))]
          by_cases h0 : a % 10 < b % 10
          · rw [if_pos ((digitChar_lt_iff _ ha0 _ hb0).mpr h0)]
            simp [show a ≤ b by omega]
          · rw [if_neg (fun hc => h0 ((digitChar_lt_iff _ ha0 _ hb0).mp hc))]
            by_cases h0' : b % 10 < a % 10
            · rw [if_pos ((digitChar_lt_iff _ hb0 _ ha0).mpr h0')]
              simp [show ¬ a ≤ b by omega]
            · rw [if_neg (fun hc => h0' ((digitChar_lt_iff _ hb0 _ ha0).mp hc))]
              simp [show a ≤ b by omega, charListLe]

theorem foldl_max_lt (l : List Nat) : ∀ a, a < 1000 → (∀ x ∈ l, x < 1000) →
    l.foldl max a < 1000 := by
  induction l with
  | nil => intro a ha _; simpa using ha
  | cons k rest ih =>
    intro a ha h
    simp only [List.foldl_cons]
    exact ih (max a k) (max_lt ha (h k (List.mem_cons_self _ _)))
      (fun x hx => h x (List.mem_cons_of_mem _ hx))

theorem foldl_pick_max (yymm : String) :
    ∀ (ks : List Nat) (a : Nat), a < 1000 → (∀ k ∈ ks, k < 1000) →
      (ks.map (fun k => yymm ++ pad3 k)).foldl
        (fun best x => if charListLe best.data x.data then x else best)
        (yymm ++ pad3 a) =
      yymm ++ pad3 (ks.foldl max a) := by
  intro ks
  induction ks with
  | nil => intro a _ _; rfl
  | cons k rest ih =>
    intro a ha h
    have hk : k < 1000 := h k (List.mem_cons_self _ _)
    simp only [List.map_cons, List.foldl_cons]
    have hcond : charListLe (yymm ++ pad3 a).data (yymm ++ pad3 k).data =
        decide (a ≤ k) := by
      rw [String.data_append, String.data_append, charListLe_append,
        pad3_eq_digits a ha, pad3_eq_digits k hk, mk_data, mk_data,
        charListLe_digits a k ha hk]
    have hstep :
        (if charListLe (yymm ++ pad3 a).data (yymm ++ pad3 k).data
          then yymm ++ pad3 k else yymm ++ pad3 a) = yymm ++ pad3 (max a k) := by
      rw [hcond]
      by_cases hab : a ≤ k
      · simp [hab, max_eq_right hab]
      · simp [hab, max_eq_left (le_of_not_le hab)]
    rw [hstep]
    exact ih (max a k) (max_lt ha hk) (fun x hx => h x (List.mem_cons_of_mem _ hx))

theorem foldl_max_eq_foldr (l : List Nat) : ∀ a, l.foldl max a = max a (l.foldr max 0) := by
  induction l with
  | nil => intro a; simp
  | cons k rest ih =>
    intro a
    simp only [List.foldl_cons, List.foldr_cons, ih]
    rw [max_assoc]

theorem sliceLast3_append_pad3 (yymm : String) (m : Nat) (hm : m < 1000) :
    sliceLast3 (yymm ++ pad3 m) = pad3 m := by
  have hlen : (pad3 m).data.length = 3 := by
    rw [pad3_eq_digits m hm]; rfl
  have hlength : (yymm ++ pad3 m).length = yymm.data.length + 3 := by
    show ((yymm ++ pad3 m).data).length = _
    rw [String.data_append, List.length_append, hlen]
  unfold sliceLast3
  have hdrop : (yymm ++ pad3 m).length - 3 = yymm.data.length := by
    rw [hlength]
    omega
  rw [String.data_append, hdrop, List.drop_left, mk_of_data]

/-- C7's retry clause is false on the code: with the persistence layer
reporting a duplicate admin code on the generated value (the concurrent-
creation race), the single-attempt create handler surfaces the collision to
the caller as a permanent 400 failure instead of retrying. -/
theorem admin_code_collision_surfaced :
    generateAdminCode "2510" ["2510001"] = "2510002" ∧
    adminCreateRoute "2510" ["2510001"] false
        (fun c => if c = "2510002" then some .code else none) =
      .badRequest "Admin code already exists. Please try again." := by
  constructor
  · decide
  · decide

/-- C7 amended: `generateAdminCode` does scan the codes sharing the current
YYMM prefix and assign max(sequence)+1 zero-padded to three digits (001 when
none exists); but a unique-constraint collision on the generated code during
admin creation is not retried — the single-attempt handler surfaces it to
the caller as a 400 "Admin code already exists. Please try again.". -/
theorem admin_code_amended (yymm : String) (codes : List String) (ks : List Nat)
    (hm : codes.filter (fun c => codeMatches yymm c) =
      ks.map (fun k => yymm ++ pad3 k))
    (hb : ∀ k ∈ ks, k < 1000) :
    generateAdminCode yymm codes = yymm ++ pad3 (ks.foldr max 0 + 1) ∧
    (∀ saveOutcome : String → Option DupKey,
      saveOutcome (generateAdminCode yymm codes) = some .code →
      adminCreateRoute yymm codes false saveOutcome =
        .badRequest "Admin code already exists. Please try again.") := by
  constructor
  · simp only [generateAdminCode]
    rw [hm]
    cases ks with
    | nil => rfl
    | cons k rest =>
      have hk : k < 1000 := hb k (List.mem_cons_self _ _)
      have hrest : ∀ x ∈ rest, x < 1000 :=
        fun x hx => hb x (List.mem_cons_of_mem _ hx)
      have hfold : rest.foldl max k < 1000 := foldl_max_lt rest k hk hrest
      simp only [List.map_cons, latestMatching]
      rw [foldl_pick_max yymm rest k hk hrest,
        sliceLast3_append_pad3 yymm _ hfold,
        parseSeq_pad3 _ hfold,
        foldl_max_eq_foldr]
      rfl
  · intro saveOutcome hso
    unfold adminCreateRoute
    rw [if_neg (by simp), hso]

theorem admin_code_amended_witness :
    ((["2510001", "2510007"] : List String).filter
        (fun c => codeMatches "2510" c) =
      ([1, 7] : List Nat).map (fun k => "2510" ++ pad3 k)) ∧
    (∀ k ∈ ([1, 7] : List Nat), k < 1000) ∧
    (generateAdminCode "2510" ["2510001", "2510007"] =
      "2510" ++ pad3 (([1, 7] : List Nat).foldr max 0 + 1)) ∧
    adminCreateRoute "2510" ["2510001", "2510007"] false (fun c => some .code) =
      .badRequest "Admin code already exists. Please try again." :=
  ⟨by decide, by decide,
   (admin_code_amended "2510" ["2510001", "2510007"] [1, 7]
     (by decide) (by decide)).1,
   (admin_code_amended "2510" ["2510001", "2510007"] [1, 7]
     (by decide) (by decide)).2 (fun c => some .code) rfl⟩

end SMS
